import Mathlib

/-
Verification development for the durable-retry segmented downloader.

The Go sources are embedded shallowly:

* src/unnamed/part_007 (first revision, the current one): Segment, SegmentParams,
  SegmentManager, NewSegmentManager, NewSegment, validateParams, ReadFrom, Write,
  Flush, Close, setErr, setDone.
* src/pkg/download/download.go: RangeSupport, UpdateRangeSupportState,
  ValidateRangeSupport, DownloadSegment.
* src/pkg/download/retry.go (first revision): RetryPolicy, NewRetryPolicy,
  WithRetryDelay, WithBackoffFactor, WithJitter, Retry, DefaultRetryPolicy.

Modelling conventions:

* Go int and int64 are modelled as Int; all divisions reachable in the embedded
  code have non-negative operands, and Go division truncates toward zero, so
  Int.tdiv is used everywhere a Go division occurs.
* File system and HTTP effects are modelled by explicit inputs and outputs: a
  response is a value, the writer underlying a segment is described by a small
  capability record, and the seek probe outcome is an input of readFrom.
* The bufio.Writer in front of the segment writer is modelled as an
  accumulating byte list that is moved to the underlying writer by flush.
  The automatic flush that bufio performs when the buffer fills is not
  modelled; no claim below depends on it, and all concrete inputs stay below
  any buffer capacity.
* The random jitter draws of the retry policy are an explicit input stream;
  rand.Int63n panics when its bound is not positive, which the model records
  as a distinguished outcome.
* BackoffFactor is float64 in Go; it is modelled as an Int. For integral
  factors the Go conversion time.Duration(float64(attempt)*BackoffFactor) is
  exact, and every claim below is about integral factors.
* math.Ceil in NewSegmentManager is applied to float64(fileSize / segmentSize)
  where the inner division is already an integer division; math.Ceil of a
  whole number is the identity (exact below 2^53), so the embedded computation
  is the truncated division itself.
-/

namespace DurableRetry

/-- Error values surfaced by the embedded code. The wrap constructor models
fmt.Errorf wrapping, errmsg models errors.New style messages. -/
inductive GoErr where
  | rangeRequestNotSupported
  | maxTotalRetryDurationExceeded
  | ctxCanceled
  | errmsg (s : String)
  | wrap (context : String) (e : GoErr)
  deriving DecidableEq, Repr

/-- InvalidParamError from part_007: a parameter name and a message. -/
structure InvalidParamError where
  param : String
  message : String
  deriving DecidableEq, Repr

/-- Capabilities of the io.WriteCloser handed to a segment. The seekable flag
records whether the writer also implements io.Seeker. -/
structure WriterModel where
  seekable : Bool
  deriving DecidableEq, Repr

/-- SegmentParams from part_007. The Go field End is named endPos because end
is reserved in Lean; Writer is an Option so that a nil writer is expressible. -/
structure SegmentParams where
  id : Int
  name : String
  start : Int
  endPos : Int
  err : Option GoErr
  maxSegmentSize : Int
  writer : Option WriterModel
  deriving DecidableEq, Repr

/-- Segment from part_007. The buffer field is the content of the bufio.Writer
that has not reached the underlying writer yet; written is the byte content
already flushed into the underlying writer (the temporary file). -/
structure Segment where
  params : SegmentParams
  done : Bool
  resumable : Bool
  buffer : List Nat
  written : List Nat
  currentOffset : Int
  deriving DecidableEq, Repr

/-- validateParams from part_007 (first revision). -/
def validateParams (params : SegmentParams) : Option InvalidParamError :=
  if params.start < 0 ∨ params.endPos < 0 then
    some ⟨"Start, End", "start, end position must be positive and start < end"⟩
  else if params.writer = none then
    some ⟨"Writer", "segment writer is nil"⟩
  else if params.maxSegmentSize < 0 then
    some ⟨"MaxSegmentSize", "MaxSegmentSize must be greater or equal to zero"⟩
  else
    none

/-- NewSegment from part_007: validate, derive resumable from the writer
implementing io.Seeker, start with an empty buffer. -/
def newSegment (params : SegmentParams) : Except InvalidParamError Segment :=
  match validateParams params with
  | some e => .error e
  | none =>
    .ok { params := params
          done := false
          resumable := match params.writer with
                       | some w => w.seekable
                       | none => false
          buffer := []
          written := []
          currentOffset := 0 }

/-- Segment.Write from part_007: delegate to the buffered writer; the model
buffer write always succeeds, and CurrentOffset is updated only on error,
exactly as in the source. Returns the byte count and error of the write. -/
def Segment.write (seg : Segment) (data : List Nat) : Segment × Nat × Option GoErr :=
  ({ seg with buffer := seg.buffer ++ data }, data.length, none)

/-- Segment.Flush from part_007: move the buffered bytes to the underlying
writer. -/
def Segment.flush (seg : Segment) : Segment × Option GoErr :=
  ({ seg with buffer := [], written := seg.written ++ seg.buffer }, none)

/-- Segment.Close from part_007 closes the underlying writer; it does not
change the segment fields. -/
def Segment.close (seg : Segment) : Segment × Option GoErr :=
  (seg, none)

/-- Segment.setErr from part_007: install the error only when it is non-nil. -/
def Segment.setErr (seg : Segment) (e : Option GoErr) : Segment :=
  match e with
  | some _ => { seg with params := { seg.params with err := e } }
  | none => seg

/-- Segment.setDone from part_007: when the flag is false or a sticky error is
present, return the sticky error unchanged; otherwise set done and flush. -/
def Segment.setDone (seg : Segment) (b : Bool) : Segment × Option GoErr :=
  if b = false ∨ seg.params.err ≠ none then
    (seg, seg.params.err)
  else
    Segment.flush { seg with done := b }

/-- Segment.ReadFrom from part_007. The seek argument is the outcome of the
Seek(0, io.SeekCurrent) probe on the underlying writer: the returned offset
together with an optional error. On a failed probe the source returns the
probe offset with a nil error and performs no copy; on a successful probe it
copies the source bytes into the buffer. -/
def Segment.readFrom (seg : Segment) (seek : Int × Option GoErr) (src : List Nat) :
    Segment × Int × Option GoErr :=
  if seg.resumable then
    match seg.params.writer with
    | some w =>
      if w.seekable then
        match seek with
        | (n, some _) => (seg, n, none)
        | (_, none) =>
          ({ seg with buffer := seg.buffer ++ src }, (src.length : Int), none)
      else
        (seg, 0, some (.errmsg "writer does not support seeking"))
    | none => (seg, 0, some (.errmsg "writer does not support seeking"))
  else
    ({ seg with buffer := seg.buffer ++ src }, (src.length : Int), none)

/-- One public Segment operation, for stating invariants over sequences of
operations. The readFrom operation carries the seek probe outcome and the
source bytes; setErr carries the error being installed. -/
inductive SegOp where
  | write (data : List Nat)
  | readFrom (seek : Int × Option GoErr) (src : List Nat)
  | flush
  | close
  | setDone (b : Bool)
  | setErr (e : Option GoErr)

/-- State effect of one operation on a segment. -/
def Segment.applyOp (seg : Segment) : SegOp → Segment
  | .write data => (seg.write data).1
  | .readFrom seek src => (seg.readFrom seek src).1
  | .flush => seg.flush.1
  | .close => seg.close.1
  | .setDone b => (seg.setDone b).1
  | .setErr e => seg.setErr e

/-- State effect of a sequence of operations. -/
def Segment.applyOps (seg : Segment) (ops : List SegOp) : Segment :=
  ops.foldl Segment.applyOp seg

/-- DefaultNumberOfSegments from part_007. -/
def DefaultNumberOfSegments : Int := 4

/-- SegmentManager from part_007. -/
structure SegmentManager where
  id : Nat
  destinationDir : String
  fileSize : Int
  segments : List Segment
  segmentSize : Int
  totalSegments : Int
  deriving DecidableEq, Repr

/-- WithSegmentSize from part_007. -/
def withSegmentSize (size : Int) : SegmentManager → SegmentManager :=
  fun sm => { sm with segmentSize := size }

/-- WithNumberOfSegments from part_007. -/
def withNumberOfSegments (n : Int) : SegmentManager → SegmentManager :=
  fun sm => { sm with totalSegments := n }

/-- The temporary file name pattern segment-(manager id)-part-(index). -/
def segmentName (smId : Nat) (i : Nat) : String :=
  "segment-" ++ toString smId ++ "-part-" ++ toString i

/-- The per-index body of the segment initialization loop of NewSegmentManager:
compute start and end, create the temporary file (file creation always
succeeds in the model and yields a seekable writer), call NewSegment. Returns
the built segments or the first error, together with the names of the
temporary files created before returning. -/
def buildSegmentsLoop (smId : Nat) (fileSize sz : Int) (ts : Nat) :
    List Nat → Except InvalidParamError (List Segment) × List String
  | [] => (.ok [], [])
  | i :: rest =>
    let start : Int := if sz > 0 then (i : Int) * sz else 0
    let endPos : Int :=
      if sz > 0 then (if i = ts - 1 then fileSize - 1 else (i : Int) * sz + sz - 1)
      else 0
    let name := segmentName smId i
    match newSegment { id := (i : Int), name := name, start := start, endPos := endPos,
                       err := none, maxSegmentSize := sz,
                       writer := some { seekable := true } } with
    | .error e => (.error e, [name])
    | .ok seg =>
      match buildSegmentsLoop smId fileSize sz ts rest with
      | (.error e, files) => (.error e, name :: files)
      | (.ok segs, files) => (.ok (seg :: segs), name :: files)

/-- The part of NewSegmentManager after the option functions have been
applied: the two validations, the planning of totalSegments and segmentSize,
and the segment initialization loop. The checks read the fields of the
manager record (sm.FileSize in Go) while the divisions and the last segment
end use the fileSize parameter, exactly as in the source. -/
def planAndBuild (smId : Nat) (fileSize : Int) (sm1 : SegmentManager) :
    Except InvalidParamError SegmentManager × List String :=
  if sm1.totalSegments > 0 ∧ sm1.segmentSize > 0 then
    (.error ⟨"TotalSegments, SegmentSize", "these two properties are mutually exclusive"⟩, [])
  else if sm1.totalSegments < 0 ∨ sm1.segmentSize < 0 then
    (.error ⟨"TotalSegments, SegmentSize", "only non-negative values are accepted"⟩, [])
  else
    let sm2 :=
      if sm1.fileSize = -1 ∨ sm1.fileSize = 0 then
        { sm1 with totalSegments := 1, segmentSize := 0 }
      else sm1
    let sm3 :=
      if sm2.fileSize > 0 then
        if sm2.totalSegments > 0 ∧ sm2.segmentSize = 0 then
          { sm2 with segmentSize := fileSize.tdiv sm2.totalSegments }
        else if sm2.totalSegments = 0 ∧ sm2.segmentSize > 0 then
          { sm2 with totalSegments := fileSize.tdiv sm2.segmentSize }
        else
          { sm2 with totalSegments := DefaultNumberOfSegments,
                     segmentSize := fileSize.tdiv DefaultNumberOfSegments }
      else sm2
    match buildSegmentsLoop smId fileSize sm3.segmentSize sm3.totalSegments.toNat
        (List.range sm3.totalSegments.toNat) with
    | (.error e, files) => (.error e, files)
    | (.ok segs, files) => (.ok { sm3 with segments := segs }, files)

/-- NewSegmentManager from part_007. The manager id (a time nonce in Go) is a
parameter. The second component of the result is the list of temporary file
names the constructor created before returning. -/
def newSegmentManager (smId : Nat) (dstDir : String) (fileSize : Int)
    (opts : List (SegmentManager → SegmentManager)) :
    Except InvalidParamError SegmentManager × List String :=
  let dir := if dstDir = "" then "/tmp" else dstDir
  let sm0 : SegmentManager :=
    { id := smId, destinationDir := dir, fileSize := fileSize,
      segments := [], segmentSize := 0, totalSegments := 0 }
  planAndBuild smId fileSize (opts.foldl (fun sm o => o sm) sm0)

/-- RangeSupport from download.go. -/
structure RangeSupport where
  supportsRangeRequests : Bool
  contentLength : Int
  acceptRanges : String
  deriving DecidableEq, Repr

/-- The RangeSupport zero value of a fresh Downloader. -/
def RangeSupport.init : RangeSupport :=
  { supportsRangeRequests := false, contentLength := 0, acceptRanges := "" }

/-- An HTTP response as observed by the embedded code: status code, the
Accept-Ranges header (empty string when absent), the ContentLength field and
the body bytes. -/
structure HttpResponse where
  statusCode : Nat
  acceptRanges : String
  contentLength : Int
  body : List Nat
  deriving DecidableEq, Repr

/-- UpdateRangeSupportState from download.go: when neither an Accept-Ranges
header nor a positive ContentLength is present, leave the state untouched;
otherwise record support and both fields. -/
def updateRangeSupportState (rs : RangeSupport) (response : HttpResponse) : RangeSupport :=
  let ac := response.acceptRanges
  let cl := response.contentLength
  if ac = "" ∧ cl ≤ 0 then rs
  else
    { supportsRangeRequests := true
      acceptRanges := response.acceptRanges
      contentLength := response.contentLength }

/-- ValidateRangeSupport from download.go. The transport outcome of the HEAD
request is the resp argument; the callback receives the response on status
200. The new RangeSupport state is returned (in Go the callback mutates the
Downloader in place). -/
def validateRangeSupport (rs : RangeSupport)
    (callback : Option (RangeSupport → HttpResponse → RangeSupport))
    (resp : Except GoErr HttpResponse) : Except GoErr RangeSupport :=
  match resp with
  | .error e => .error (.wrap "making range request" e)
  | .ok r =>
    if r.statusCode ≠ 200 then .error .rangeRequestNotSupported
    else
      match callback with
      | some cb => .ok (cb rs r)
      | none => .ok rs

/-- DownloadSegment from download.go. The ctxDone flag is the cancellation
check before dispatch, resp is the transport outcome of the GET, and seek is
the probe outcome used by Segment.ReadFrom. The Range header construction
(emitted only when range requests are supported) does not touch the segment
state and is not modelled. Returns the new segment state and the error value
DownloadSegment returns. -/
def downloadSegment (ctxDone : Bool) (seg : Segment) (seek : Int × Option GoErr)
    (resp : Except GoErr HttpResponse) : Segment × Option GoErr :=
  if ctxDone then (seg, some .ctxCanceled)
  else
    match resp with
    | .error e => (seg.setErr (some e), some e)
    | .ok r =>
      if r.statusCode = 200 then
        match seg.readFrom seek r.body with
        | (seg1, _, some e) => (seg1.setErr (some e), some e)
        | (seg1, _, none) => seg1.setDone true
      else if r.statusCode = 416 then
        seg.setDone true
      else if r.statusCode = 206 then
        match seg.readFrom seek r.body with
        | (seg1, _, some e) => (seg1.setErr (some e), some e)
        | (seg1, _, none) => (seg1, none)
      else
        seg.setDone false

/-- RetryPolicy from retry.go. MaxRetries is a Nat: a non-positive Go value
runs the loop zero times, exactly as fuel zero does here. BackoffFactor is
float64 in Go and is modelled as an Int (exact for integral factors).
Durations are in nanoseconds. The random source is an explicit draw stream
passed to retry. -/
structure RetryPolicy where
  maxRetries : Nat
  retryDelay : Int
  backoffFactor : Int
  jitter : Int
  shouldRetry : Option (GoErr → Bool)
  maxTotalRetryDuration : Int

/-- NewRetryPolicy from retry.go: zero values for every field except
MaxRetries, then the option functions applied in order. -/
def newRetryPolicy (maxRetries : Nat) (opts : List (RetryPolicy → RetryPolicy)) :
    RetryPolicy :=
  opts.foldl (fun p o => o p)
    { maxRetries := maxRetries, retryDelay := 0, backoffFactor := 0, jitter := 0,
      shouldRetry := none, maxTotalRetryDuration := 0 }

/-- WithRetryDelay from retry.go. -/
def withRetryDelay (delay : Int) : RetryPolicy → RetryPolicy :=
  fun p => { p with retryDelay := delay }

/-- WithBackoffFactor from retry.go (integral factors). -/
def withBackoffFactor (factor : Int) : RetryPolicy → RetryPolicy :=
  fun p => { p with backoffFactor := factor }

/-- WithJitter from retry.go. -/
def withJitter (jitter : Int) : RetryPolicy → RetryPolicy :=
  fun p => { p with jitter := jitter }

/-- One recorded invocation of the OnRetry callback: the segment id, the
attempt value passed (the Go code passes attempt+1) and the computed sleep. -/
structure OnRetryCall where
  segmentID : Int
  attempt : Nat
  nextRetryIn : Int
  deriving DecidableEq, Repr

/-- How a Retry run ends. panicked records rand.Int63n being reached with a
non-positive bound, which panics in Go. -/
inductive RetryOutcome where
  | ok
  | taskErr (e : GoErr)
  | canceled (e : GoErr)
  | maxExceeded
  | panicked
  deriving DecidableEq, Repr

/-- The observable trace of a Retry run: its outcome, the OnRetry invocations
(performed when OnRetry is non-nil) and the sleeps performed. -/
structure RetryTrace where
  outcome : RetryOutcome
  onRetryCalls : List OnRetryCall
  sleeps : List Int
  deriving DecidableEq, Repr

/-- The sleep computed for a failed attempt:
RetryDelay + time.Duration(float64(attempt)*BackoffFactor)*time.Millisecond
plus the jitter draw of this attempt. -/
def nextRetryIn (p : RetryPolicy) (attempt : Nat) (draw : Int) : Int :=
  p.retryDelay + (attempt : Int) * p.backoffFactor * 1000000 + draw

/-- The loop body of RetryPolicy.Retry, with fuel counting the remaining
iterations of the for loop. ctxDone models the per-iteration cancellation
check, task the per-attempt error of the wrapped function, draw the jitter
draws of the random source. total is the accumulated totalRetryDuration and
lastErr the err variable of the Go code. -/
def retryAux (p : RetryPolicy) (segmentID : Int) (ctxDone : Nat → Bool)
    (task : Nat → Option GoErr) (draw : Nat → Int) :
    Nat → Nat → Int → Option GoErr → RetryTrace
  | 0, _, _, lastErr =>
    { outcome := match lastErr with
                 | none => .ok
                 | some e => .taskErr e
      onRetryCalls := [], sleeps := [] }
  | fuel + 1, attempt, total, _ =>
    if ctxDone attempt then
      { outcome := .canceled .ctxCanceled, onRetryCalls := [], sleeps := [] }
    else
      match task attempt with
      | none => { outcome := .ok, onRetryCalls := [], sleeps := [] }
      | some e =>
        if (match p.shouldRetry with
            | some f => ! f e
            | none => false) then
          { outcome := .taskErr e, onRetryCalls := [], sleeps := [] }
        else if p.jitter ≤ 0 then
          { outcome := .panicked, onRetryCalls := [], sleeps := [] }
        else
          let nri := nextRetryIn p attempt (draw attempt)
          let total2 := if p.maxTotalRetryDuration > 0 then total + nri else total
          if p.maxTotalRetryDuration > 0 ∧ total2 > p.maxTotalRetryDuration then
            { outcome := .maxExceeded, onRetryCalls := [], sleeps := [] }
          else
            let rest := retryAux p segmentID ctxDone task draw fuel (attempt + 1) total2 (some e)
            { outcome := rest.outcome
              onRetryCalls := ⟨segmentID, attempt + 1, nri⟩ :: rest.onRetryCalls
              sleeps := nri :: rest.sleeps }

/-- RetryPolicy.Retry from retry.go: run the loop from attempt 1 with zero
accumulated duration and a nil last error. -/
def RetryPolicy.retry (p : RetryPolicy) (segmentID : Int) (ctxDone : Nat → Bool)
    (task : Nat → Option GoErr) (draw : Nat → Int) : RetryTrace :=
  retryAux p segmentID ctxDone task draw p.maxRetries 1 0 none

/-- A fresh segment for concrete runs: writable, seekable, no sticky error. -/
def sampleSegment : Segment :=
  { params := { id := 0, name := "segment-0-part-0", start := 0, endPos := 9,
                err := none, maxSegmentSize := 10, writer := some { seekable := true } }
    done := false
    resumable := true
    buffer := []
    written := []
    currentOffset := 0 }

/-- The segment produced by index i of the initialization loop of
NewSegmentManager when the planned segment size is sz and the planned count is
ts and every validation passes. -/
def mkPlannedSegment (smId : Nat) (fileSize sz : Int) (ts : Nat) (i : Nat) : Segment :=
  { params := { id := (i : Int)
                name := segmentName smId i
                start := if sz > 0 then (i : Int) * sz else 0
                endPos := if sz > 0 then
                            (if i = ts - 1 then fileSize - 1 else (i : Int) * sz + sz - 1)
                          else 0
                err := none
                maxSegmentSize := sz
                writer := some { seekable := true } }
    done := false
    resumable := true
    buffer := []
    written := []
    currentOffset := 0 }

/-- The accumulated totalRetryDuration after the sleeps of attempts 1..j have
been added. -/
def partialTotal (p : RetryPolicy) (draw : Nat → Int) (j : Nat) : Int :=
  ((List.range' 1 j).map fun i => nextRetryIn p i (draw i)).sum


/-- The manager NewSegmentManager builds for fileSize 10 with segment size 3
and manager id 0: three segments covering 0..2, 3..5 and 6..9. -/
def sampleManager : SegmentManager :=
  { id := 0, destinationDir := "/tmp", fileSize := 10
    segments :=
      [{ params := { id := 0, name := "segment-0-part-0", start := 0, endPos := 2,
                     err := none, maxSegmentSize := 3, writer := some { seekable := true } }
         done := false, resumable := true, buffer := [], written := [], currentOffset := 0 },
       { params := { id := 1, name := "segment-0-part-1", start := 3, endPos := 5,
                     err := none, maxSegmentSize := 3, writer := some { seekable := true } }
         done := false, resumable := true, buffer := [], written := [], currentOffset := 0 },
       { params := { id := 2, name := "segment-0-part-2", start := 6, endPos := 9,
                     err := none, maxSegmentSize := 3, writer := some { seekable := true } }
         done := false, resumable := true, buffer := [], written := [], currentOffset := 0 }]
    segmentSize := 3, totalSegments := 3 }

/-- The full segment list planned by NewSegmentManager once the planned count
and size are fixed. -/
def plannedSegments (smId : Nat) (fileSize sz : Int) (N : Nat) : List Segment :=
  (List.range N).map (mkPlannedSegment smId fileSize sz N)

/-! Theorems. -/

/-- Helper: the validations of NewSegment succeed on every segment planned for
a positive file size and a non-negative segment size. -/
theorem newSegment_planned (smId : Nat) (fileSize sz : Int) (ts i : Nat)
    (hf : 0 < fileSize) (hsz : 0 ≤ sz) :
    newSegment { id := (i : Int), name := segmentName smId i
                 start := if sz > 0 then (i : Int) * sz else 0
                 endPos := if sz > 0 then
                             (if i = ts - 1 then fileSize - 1 else (i : Int) * sz + sz - 1)
                           else 0
                 err := none, maxSegmentSize := sz
                 writer := some { seekable := true } } =
      .ok (mkPlannedSegment smId fileSize sz ts i) := by
  have hstart : (0 : Int) ≤ (if sz > 0 then (i : Int) * sz else 0) := by
    split
    · exact mul_nonneg (Int.natCast_nonneg i) hsz
    · exact le_refl 0
  have hendPos : (0 : Int) ≤ (if sz > 0 then
      (if i = ts - 1 then fileSize - 1 else (i : Int) * sz + sz - 1) else 0) := by
    split
    · rename_i hszpos
      split
      · omega
      · have : (0 : Int) ≤ (i : Int) * sz := mul_nonneg (Int.natCast_nonneg i) hsz
        omega
    · exact le_refl 0
  simp only [newSegment, validateParams, mkPlannedSegment]
  rw [if_neg (by push_neg; exact ⟨hstart, hendPos⟩)]
  rw [if_neg (by simp)]
  rw [if_neg (by omega)]

/-- Helper: with a positive file size and a non-negative segment size, the
segment initialization loop succeeds on any index list and creates exactly one
file per index. -/
theorem buildSegmentsLoop_ok (smId : Nat) (fileSize sz : Int) (ts : Nat)
    (hf : 0 < fileSize) (hsz : 0 ≤ sz) :
    ∀ is : List Nat,
      buildSegmentsLoop smId fileSize sz ts is =
        (.ok (is.map (mkPlannedSegment smId fileSize sz ts)), is.map (segmentName smId))
  | [] => by simp [buildSegmentsLoop]
  | i :: rest => by
    rw [buildSegmentsLoop]
    rw [newSegment_planned smId fileSize sz ts i hf hsz]
    rw [buildSegmentsLoop_ok smId fileSize sz ts hf hsz rest]
    simp

/-- Claim C8: when both TotalSegments and SegmentSize are supplied positive,
NewSegmentManager returns the invalid-param error with field name
TotalSegments, SegmentSize, and no segment file is created. -/
theorem c8_conflict (smId : Nat) (dstDir : String) (fileSize ts0 sz0 : Int)
    (hts : 0 < ts0) (hsz : 0 < sz0) :
    newSegmentManager smId dstDir fileSize [withNumberOfSegments ts0, withSegmentSize sz0] =
      (.error ⟨"TotalSegments, SegmentSize", "these two properties are mutually exclusive"⟩,
       []) := by
  simp [newSegmentManager, planAndBuild, withNumberOfSegments, withSegmentSize, hts, hsz]

/-- Witness for C8 at the planning-conflict scenario totalSegments = 2,
segmentSize = 2. -/
theorem c8_witness :
    newSegmentManager 0 "" 100 [withNumberOfSegments 2, withSegmentSize 2] =
      (.error ⟨"TotalSegments, SegmentSize", "these two properties are mutually exclusive"⟩,
       []) :=
  c8_conflict 0 "" 100 2 2 (by decide) (by decide)

/-- Claim C4 (code divergence): for fileSize 10 and segmentSize 3 the
constructor computes 3 segments, while the ceiling of 10 divided by 3 is 4.
The source computes int(math.Ceil(float64(fileSize / segmentSize))): the
inner integer division truncates before math.Ceil is applied. -/
theorem c4_floor_not_ceil :
    ((newSegmentManager 0 "" 10 [withSegmentSize 3]).1.map fun sm => sm.totalSegments) =
      .ok 3 ∧ ((10 : Int) + 3 - 1) / 3 = 4 := by
  exact ⟨rfl, by decide⟩

/-- Claim C5 (code divergence): fileSize 10 with segmentSize 20 is accepted
without error, yet yields totalSegments 0 and an empty segment list. -/
theorem c5_zero_segments :
    ((newSegmentManager 0 "" 10 [withSegmentSize 20]).1.map fun sm =>
        (sm.totalSegments, sm.segments.length)) = .ok (0, 0) := by
  rfl

/-- Counterexample to claim C1 as stated: fileSize 2 with totalSegments 4
constructs successfully, but the planned segment size is 0, every segment has
start = end = 0, the covered lengths sum to 4, not 2, and the last end is 0,
not fileSize - 1 = 1. -/
theorem c1_counterexample :
    ((newSegmentManager 0 "" 2 [withNumberOfSegments 4]).1.map fun sm =>
        ((sm.segments.map fun s => s.params.endPos - s.params.start + 1).sum,
         sm.segments.getLast?.map fun s => s.params.endPos)) =
      .ok (4, some 0) ∧ (4 : Int) ≠ 2 ∧ (0 : Int) ≠ 2 - 1 := by
  refine ⟨rfl, by decide, by decide⟩

/-- Counterexample to claim C3 as stated: a HEAD response with status 200 but
no Accept-Ranges header and no positive ContentLength still makes
ValidateRangeSupport succeed, so success is not equivalent to the presence of
those headers (the recorded state is left unchanged). -/
theorem c3_counterexample :
    validateRangeSupport RangeSupport.init (some updateRangeSupportState)
        (.ok { statusCode := 200, acceptRanges := "", contentLength := 0, body := [] }) =
      .ok RangeSupport.init ∧
    ¬(("" : String) ≠ "" ∨ (0 : Int) > 0) := by
  refine ⟨rfl, by decide⟩

/-- Claim C3 amended: with the default UpdateRangeSupportState callback, the
probe succeeds exactly when the status is 200; any non-200 status yields the
range-not-supported error; on 200 with neither an Accept-Ranges header nor a
positive ContentLength the recorded RangeSupport is unchanged, and otherwise
support is recorded together with both header fields. -/
theorem c3_amended (rs : RangeSupport) (resp : HttpResponse) :
    ((validateRangeSupport rs (some updateRangeSupportState) (.ok resp)).isOk = true ↔
        resp.statusCode = 200) ∧
    (resp.statusCode ≠ 200 →
        validateRangeSupport rs (some updateRangeSupportState) (.ok resp) =
          .error .rangeRequestNotSupported) ∧
    (resp.statusCode = 200 → resp.acceptRanges = "" → resp.contentLength ≤ 0 →
        validateRangeSupport rs (some updateRangeSupportState) (.ok resp) = .ok rs) ∧
    (resp.statusCode = 200 → (resp.acceptRanges ≠ "" ∨ 0 < resp.contentLength) →
        validateRangeSupport rs (some updateRangeSupportState) (.ok resp) =
          .ok { supportsRangeRequests := true
                acceptRanges := resp.acceptRanges
                contentLength := resp.contentLength }) := by
  by_cases h200 : resp.statusCode = 200
  · refine ⟨by simp [validateRangeSupport, h200, Except.isOk, Except.toBool], by simp [h200], ?_, ?_⟩
    · intro _ hac hcl
      simp [validateRangeSupport, updateRangeSupportState, h200, hac, hcl]
    · intro _ hor
      have hcond : ¬(resp.acceptRanges = "" ∧ resp.contentLength ≤ 0) := by
        rcases hor with h | h
        · exact fun hc => h hc.1
        · exact fun hc => absurd h (not_lt.mpr hc.2)
      simp [validateRangeSupport, updateRangeSupportState, h200, hcond]
  · refine ⟨?_, by simp [validateRangeSupport, h200], ?_, ?_⟩
    · simp [validateRangeSupport, h200, Except.isOk, Except.toBool]
    · intro h; exact absurd h h200
    · intro h; exact absurd h h200

/-- Witness for C3 amended: a 404 probe yields the range-not-supported
error. -/
theorem c3_witness :
    validateRangeSupport RangeSupport.init (some updateRangeSupportState)
        (.ok { statusCode := 404, acceptRanges := "bytes", contentLength := 7, body := [] }) =
      .error .rangeRequestNotSupported :=
  (c3_amended RangeSupport.init
      { statusCode := 404, acceptRanges := "bytes", contentLength := 7, body := [] }).2.1
    (by decide)

/-- Helper: no segment operation ever clears the done flag. -/
theorem applyOp_done_mono (seg : Segment) (op : SegOp) (h : seg.done = true) :
    (seg.applyOp op).done = true := by
  cases op with
  | write data => simpa [Segment.applyOp, Segment.write] using h
  | flush => simpa [Segment.applyOp, Segment.flush] using h
  | close => simpa [Segment.applyOp, Segment.close] using h
  | setErr e => cases e <;> simp [Segment.applyOp, Segment.setErr, h]
  | setDone b =>
    cases b with
    | false => simpa [Segment.applyOp, Segment.setDone] using h
    | true =>
      by_cases he : seg.params.err = none
      · simp [Segment.applyOp, Segment.setDone, Segment.flush, he]
      · simp [Segment.applyOp, Segment.setDone, he, h]
  | readFrom seek src =>
    obtain ⟨n, e⟩ := seek
    by_cases hres : seg.resumable = true
    · cases hw : seg.params.writer with
      | none => simp [Segment.applyOp, Segment.readFrom, hres, hw, h]
      | some w =>
        cases e <;> by_cases hs : w.seekable = true <;>
          simp [Segment.applyOp, Segment.readFrom, hres, hw, hs, h]
    · simp [Segment.applyOp, Segment.readFrom, hres, h]

/-- Counterexample to claim C6 as stated: setErr after a successful
setDone(true) leaves done set together with a non-empty sticky error, so the
invariant done implies err empty is not preserved by every operation
sequence. -/
theorem c6_counterexample :
    (sampleSegment.applyOps [.setDone true, .setErr (some (.errmsg "boom"))]).done = true ∧
    (sampleSegment.applyOps [.setDone true, .setErr (some (.errmsg "boom"))]).params.err ≠
      none := by
  refine ⟨rfl, by decide⟩

/-- Claim C6 amended: once done is set no operation of the public surface
clears it, and immediately after a successful setDone(true) (possible exactly
when no sticky error is present) the buffer is empty and err is unset;
subsequent setErr or write operations can, however, set err or refill the
buffer while done stays true. -/
theorem c6_amended (seg : Segment) :
    (∀ ops : List SegOp, seg.done = true → (seg.applyOps ops).done = true) ∧
    (seg.params.err = none →
      (seg.setDone true).2 = none ∧ (seg.setDone true).1.done = true ∧
      (seg.setDone true).1.buffer = [] ∧ (seg.setDone true).1.params.err = none) := by
  constructor
  · intro ops
    induction ops generalizing seg with
    | nil => intro h; simpa [Segment.applyOps] using h
    | cons op rest ih =>
      intro h
      have h1 := applyOp_done_mono seg op h
      simpa [Segment.applyOps] using ih (seg.applyOp op) h1
  · intro herr
    simp [Segment.setDone, Segment.flush, herr]

/-- Witness for C6 amended at concrete segments. -/
theorem c6_witness :
    ({ sampleSegment with done := true }.applyOps [.flush, .close]).done = true ∧
    (sampleSegment.setDone true).2 = none ∧ (sampleSegment.setDone true).1.buffer = [] :=
  ⟨(c6_amended { sampleSegment with done := true }).1 [.flush, .close] rfl,
   ((c6_amended sampleSegment).2 rfl).1,
   ((c6_amended sampleSegment).2 rfl).2.2.1⟩

/-- Counterexample to claim C7 as stated: on a resumable segment whose seek
probe fails, ReadFrom returns the probe offset with a nil error and performs
no copy at all, so the returned values do not describe a copy and the copy
does not happen. -/
theorem c7_counterexample :
    sampleSegment.readFrom (0, some (.errmsg "seek failed")) [1, 2, 3] =
      (sampleSegment, 0, none) ∧
    (sampleSegment.readFrom (0, some (.errmsg "seek failed")) [1, 2, 3]).1.buffer = [] :=
  ⟨rfl, rfl⟩

/-- Claim C7 amended: on a resumable segment ReadFrom first issues the
seek-current probe; when the probe succeeds the whole source is copied into
the buffer and the returned count and error describe the copy, but when the
probe fails ReadFrom returns the probe offset with a nil error without
copying. -/
theorem c7_amended (seg : Segment) (w : WriterModel) (seek : Int × Option GoErr)
    (src : List Nat) (hres : seg.resumable = true) (hw : seg.params.writer = some w)
    (hsk : w.seekable = true) :
    (seek.2 = none →
      seg.readFrom seek src =
        ({ seg with buffer := seg.buffer ++ src }, (src.length : Int), none)) ∧
    (∀ e, seek.2 = some e → seg.readFrom seek src = (seg, seek.1, none)) := by
  obtain ⟨n, err⟩ := seek
  cases err with
  | none =>
    refine ⟨fun _ => by simp [Segment.readFrom, hres, hw, hsk], fun e h => by simp at h⟩
  | some e0 =>
    refine ⟨fun h => by simp at h, fun e h => by simp [Segment.readFrom, hres, hw, hsk]⟩

/-- Witness for C7 amended: a successful probe copies the source, a failed
probe copies nothing and returns the probe offset with a nil error. -/
theorem c7_witness :
    sampleSegment.readFrom (0, none) [5, 6] =
      ({ sampleSegment with buffer := [5, 6] }, 2, none) ∧
    sampleSegment.readFrom (7, some (.errmsg "x")) [5, 6] = (sampleSegment, 7, none) := by
  constructor
  · have h := (c7_amended sampleSegment ⟨true⟩ (0, none) [5, 6] rfl rfl rfl).1 rfl
    simpa using h
  · exact (c7_amended sampleSegment ⟨true⟩ (7, some (.errmsg "x")) [5, 6] rfl rfl rfl).2 _ rfl

/-- Counterexample to claim C2 as stated: a GET answered with status 500 on a
segment without a prior sticky error makes DownloadSegment return a nil
error, so the enclosing Retry treats the attempt as a success: it returns
after the first attempt and never invokes on_retry. -/
theorem c2_counterexample :
    downloadSegment false sampleSegment (0, none)
        (.ok { statusCode := 500, acceptRanges := "", contentLength := 0, body := [] }) =
      (sampleSegment, none) ∧
    RetryPolicy.retry ⟨5, 1000000000, 2, 500000000, none, 0⟩ 0 (fun _ => false)
        (fun _ => (downloadSegment false sampleSegment (0, none)
          (.ok { statusCode := 500, acceptRanges := "", contentLength := 0, body := [] })).2)
        (fun _ => 0) =
      { outcome := .ok, onRetryCalls := [], sleeps := [] } :=
  ⟨rfl, rfl⟩

/-- Claim C2 amended: on a status other than 200, 206 and 416 DownloadSegment
leaves the segment unchanged (done stays false) and returns the sticky error,
which is nil when no prior error was recorded, so the Retry Policy performs a
further attempt only when the returned error is non-nil; when attempts do
return errors, on_retry is invoked before each retry and a later successful
attempt (for example a 206) yields overall success. -/
theorem c2_amended (seg : Segment) (seek : Int × Option GoErr) (r : HttpResponse)
    (p : RetryPolicy) (sid : Int) (ctxDone : Nat → Bool) (task : Nat → Option GoErr)
    (draw : Nat → Int) (e1 e2 : GoErr)
    (h200 : r.statusCode ≠ 200) (h206 : r.statusCode ≠ 206) (h416 : r.statusCode ≠ 416)
    (hmr : 3 ≤ p.maxRetries) (hcap : p.maxTotalRetryDuration = 0) (hjit : 0 < p.jitter)
    (hsr : p.shouldRetry = none) (hctx : ∀ i, ctxDone i = false)
    (h1 : task 1 = some e1) (h2 : task 2 = some e2) (h3 : task 3 = none) :
    downloadSegment false seg seek (.ok r) = (seg, seg.params.err) ∧
    p.retry sid ctxDone task draw =
      { outcome := .ok
        onRetryCalls := [⟨sid, 2, nextRetryIn p 1 (draw 1)⟩,
                         ⟨sid, 3, nextRetryIn p 2 (draw 2)⟩]
        sleeps := [nextRetryIn p 1 (draw 1), nextRetryIn p 2 (draw 2)] } := by
  have hj : ¬ p.jitter ≤ 0 := not_le.mpr hjit
  constructor
  · simp [downloadSegment, h200, h206, h416, Segment.setDone]
  · obtain ⟨m, hm⟩ : ∃ m, p.maxRetries = m + 3 := ⟨p.maxRetries - 3, by omega⟩
    rw [RetryPolicy.retry, hm]
    rw [show m + 3 = (m + 2) + 1 from rfl, retryAux]
    simp only [hctx, h1, hsr, hj, hcap, if_false, if_neg]
    rw [show m + 2 = (m + 1) + 1 from rfl, retryAux]
    simp only [hctx, h2, hsr, hj, hcap]
    rw [retryAux]
    simp only [hctx, h3]
    simp [hj, hcap]

/-- Witness for C2 amended: a 503 response yields a nil error on an untouched
segment, and a retry run whose first two attempts fail and whose third
succeeds produces two on_retry invocations and overall success. -/
theorem c2_witness :
    downloadSegment false sampleSegment (0, none)
        (.ok { statusCode := 503, acceptRanges := "", contentLength := 0, body := [] }) =
      (sampleSegment, none) ∧
    RetryPolicy.retry ⟨5, 10, 0, 5, none, 0⟩ 1 (fun _ => false)
        (fun i => if i ≤ 2 then some (.errmsg "boom") else none) (fun _ => 0) =
      { outcome := .ok, onRetryCalls := [⟨1, 2, 10⟩, ⟨1, 3, 10⟩], sleeps := [10, 10] } := by
  have h := c2_amended sampleSegment (0, none)
      { statusCode := 503, acceptRanges := "", contentLength := 0, body := [] }
      ⟨5, 10, 0, 5, none, 0⟩ 1 (fun _ => false)
      (fun i => if i ≤ 2 then some (.errmsg "boom") else none) (fun _ => 0)
      (.errmsg "boom") (.errmsg "boom")
      (by decide) (by decide) (by decide) (by decide) rfl (by decide) rfl
      (fun i => rfl) rfl rfl rfl
  exact ⟨h.1, h.2.trans (by decide)⟩

/-- Claim C10: with Jitter left at 0 (as NewRetryPolicy builds it without the
WithJitter option), the first failed attempt that passes the ShouldRetry
gate reaches rand.Int63n with a non-positive bound, so the run panics before
any sleep can be computed and on_retry is never invoked. -/
theorem c10_jitter_zero_panics (p : RetryPolicy) (sid : Int) (ctxDone : Nat → Bool)
    (task : Nat → Option GoErr) (draw : Nat → Int) (e : GoErr)
    (hjit : p.jitter = 0) (hmr : 1 ≤ p.maxRetries)
    (hctx : ctxDone 1 = false) (htask : task 1 = some e)
    (hsr : ∀ f, p.shouldRetry = some f → f e = true) :
    p.retry sid ctxDone task draw =
      { outcome := .panicked, onRetryCalls := [], sleeps := [] } := by
  obtain ⟨m, hm⟩ : ∃ m, p.maxRetries = m + 1 := ⟨p.maxRetries - 1, by omega⟩
  rw [RetryPolicy.retry, hm, retryAux]
  cases hs : p.shouldRetry with
  | none => simp [hctx, htask, hs, hjit]
  | some f =>
    have hf := hsr f hs
    simp [hctx, htask, hs, hf, hjit]

/-- Witness for C10: the policy built by NewRetryPolicy with delay and
backoff options but without WithJitter panics on the first failed attempt. -/
theorem c10_witness :
    (newRetryPolicy 5 [withRetryDelay 1000000000, withBackoffFactor 2]).retry 3
        (fun _ => false) (fun _ => some (.errmsg "boom")) (fun _ => 0) =
      { outcome := .panicked, onRetryCalls := [], sleeps := [] } :=
  c10_jitter_zero_panics (newRetryPolicy 5 [withRetryDelay 1000000000, withBackoffFactor 2])
    3 (fun _ => false) (fun _ => some (.errmsg "boom")) (fun _ => 0) (.errmsg "boom")
    rfl (by decide) rfl rfl
    (fun f h => by
      rw [show (newRetryPolicy 5 [withRetryDelay 1000000000, withBackoffFactor 2]).shouldRetry
            = none from rfl] at h
      cases h)

/-- Helper: the accumulated total after attempt j + 1 extends the accumulated
total after attempt j by the sleep of attempt j + 1. -/
theorem partialTotal_succ (p : RetryPolicy) (draw : Nat → Int) (j : Nat) :
    partialTotal p draw (j + 1) =
      partialTotal p draw j + nextRetryIn p (j + 1) (draw (j + 1)) := by
  have h := @List.range'_concat 1 1 j
  simp only [partialTotal, h, List.map_append, List.sum_append]
  norm_num [Nat.add_comm]

/-- Helper: the retry loop, entered at attempt a with the accumulated total of
the first a - 1 attempts, returns the max-exceeded outcome at attempt k while
sleeping and invoking on_retry only for attempts a..k-1. -/
theorem retryAux_maxExceeded (p : RetryPolicy) (sid : Int) (ctxDone : Nat → Bool)
    (task : Nat → Option GoErr) (draw : Nat → Int) (err : Nat → GoErr) (k : Nat)
    (hcap : 0 < p.maxTotalRetryDuration) (hjit : 0 < p.jitter)
    (hfail : ∀ i, 1 ≤ i → i ≤ k → task i = some (err i))
    (hsr : ∀ i, 1 ≤ i → i ≤ k → ∀ f, p.shouldRetry = some f → f (err i) = true)
    (hctx : ∀ i, 1 ≤ i → i ≤ k → ctxDone i = false)
    (hwithin : ∀ j, 1 ≤ j → j < k → partialTotal p draw j ≤ p.maxTotalRetryDuration)
    (hexceed : p.maxTotalRetryDuration < partialTotal p draw k) :
    ∀ (m a fuel : Nat) (last : Option GoErr), 1 ≤ a → a + m = k → m + 1 ≤ fuel →
      retryAux p sid ctxDone task draw fuel a (partialTotal p draw (a - 1)) last =
        { outcome := .maxExceeded
          onRetryCalls := (List.range' a m).map fun i => ⟨sid, i + 1, nextRetryIn p i (draw i)⟩
          sleeps := (List.range' a m).map fun i => nextRetryIn p i (draw i) } := by
  have hj : ¬ p.jitter ≤ 0 := not_le.mpr hjit
  intro m
  induction m with
  | zero =>
    intro a fuel last ha hak hf
    have hak' : a = k := by omega
    subst hak'
    obtain ⟨f, rfl⟩ : ∃ f, fuel = f + 1 := ⟨fuel - 1, by omega⟩
    rw [retryAux]
    rw [hctx a ha le_rfl, hfail a ha le_rfl]
    have hsrcond : (match p.shouldRetry with
        | some f => ! f (err a)
        | none => false) = false := by
      cases hs : p.shouldRetry with
      | none => rfl
      | some g => simp [hsr a ha le_rfl g hs]
    simp only [hsrcond, Bool.false_eq_true, if_false, hj, if_neg]
    have htot : partialTotal p draw (a - 1) + nextRetryIn p a (draw a) =
        partialTotal p draw a := by
      have ha1 : a - 1 + 1 = a := by omega
      rw [← ha1, partialTotal_succ]
      rw [ha1]
    simp only [if_pos hcap]
    rw [htot]
    simp [hcap, hexceed]
  | succ n ih =>
    intro a fuel last ha hak hf
    obtain ⟨f, rfl⟩ : ∃ f, fuel = f + 1 := ⟨fuel - 1, by omega⟩
    rw [retryAux]
    rw [hctx a ha (by omega), hfail a ha (by omega)]
    have hsrcond : (match p.shouldRetry with
        | some f => ! f (err a)
        | none => false) = false := by
      cases hs : p.shouldRetry with
      | none => rfl
      | some g => simp [hsr a ha (by omega) g hs]
    have htot : partialTotal p draw (a - 1) + nextRetryIn p a (draw a) =
        partialTotal p draw a := by
      have ha1 : a - 1 + 1 = a := by omega
      rw [← ha1, partialTotal_succ]
      rw [ha1]
    have hwith : partialTotal p draw a ≤ p.maxTotalRetryDuration :=
      hwithin a ha (by omega)
    have hrec := ih (a + 1) f (some (err a)) (by omega) (by omega) (by omega)
    have ha1 : a + 1 - 1 = a := by omega
    rw [ha1] at hrec
    simp only [hsrcond, Bool.false_eq_true, if_false, hj, if_neg, if_pos hcap]
    rw [htot]
    rw [if_neg (by omega)]
    rw [hrec]
    simp [List.range'_succ]

/-- Claim C9: when the maximum total retry duration is positive and the sleep
computed for failed attempt k is the first to push the accumulated total over
the cap, Retry returns the max-total-retry-duration-exceeded error rather
than the task error, without performing the sleep of attempt k and without
invoking on_retry for attempt k: the trace holds sleeps and on_retry calls
for attempts 1..k-1 only. -/
theorem c9_cap_exceeded (p : RetryPolicy) (sid : Int) (ctxDone : Nat → Bool)
    (task : Nat → Option GoErr) (draw : Nat → Int) (err : Nat → GoErr) (k : Nat)
    (hcap : 0 < p.maxTotalRetryDuration) (hjit : 0 < p.jitter)
    (hk1 : 1 ≤ k) (hk2 : k ≤ p.maxRetries)
    (hfail : ∀ i, 1 ≤ i → i ≤ k → task i = some (err i))
    (hsr : ∀ i, 1 ≤ i → i ≤ k → ∀ f, p.shouldRetry = some f → f (err i) = true)
    (hctx : ∀ i, 1 ≤ i → i ≤ k → ctxDone i = false)
    (hwithin : ∀ j, 1 ≤ j → j < k → partialTotal p draw j ≤ p.maxTotalRetryDuration)
    (hexceed : p.maxTotalRetryDuration < partialTotal p draw k) :
    p.retry sid ctxDone task draw =
      { outcome := .maxExceeded
        onRetryCalls := (List.range' 1 (k - 1)).map fun i =>
          ⟨sid, i + 1, nextRetryIn p i (draw i)⟩
        sleeps := (List.range' 1 (k - 1)).map fun i => nextRetryIn p i (draw i) } := by
  have h := retryAux_maxExceeded p sid ctxDone task draw err k hcap hjit hfail hsr hctx
      hwithin hexceed (k - 1) 1 p.maxRetries none le_rfl (by omega) (by omega)
  rw [RetryPolicy.retry]
  have h0 : partialTotal p draw (1 - 1) = 0 := by simp [partialTotal]
  rw [h0] at h
  exact h

/-- Witness for C9: delay 10ns, no backoff, jitter bound 5 with zero draws and
cap 15ns; attempt 1 sleeps 10, attempt 2 would bring the total to 20 > 15, so
the run stops with the max-exceeded error after exactly one sleep and one
on_retry call. -/
theorem c9_witness :
    RetryPolicy.retry ⟨3, 10, 0, 5, none, 15⟩ 7 (fun _ => false)
        (fun _ => some (.errmsg "boom")) (fun _ => 0) =
      { outcome := .maxExceeded, onRetryCalls := [⟨7, 2, 10⟩], sleeps := [10] } := by
  have h := c9_cap_exceeded ⟨3, 10, 0, 5, none, 15⟩ 7 (fun _ => false)
      (fun _ => some (.errmsg "boom")) (fun _ => 0) (fun _ => .errmsg "boom") 2
      (by decide) (by decide) (by decide) (by decide)
      (fun i h1 h2 => rfl)
      (fun i h1 h2 f hf => by
        rw [show (⟨3, 10, 0, 5, none, 15⟩ : RetryPolicy).shouldRetry = none from rfl] at hf
        cases hf)
      (fun i h1 h2 => rfl)
      (fun j h1 h2 => by
        have hj1 : j = 1 := by omega
        subst hj1
        decide)
      (by decide)
  exact h.trans (by decide)

/-- Helper: arithmetic bound behind the partition property. -/
theorem planned_bound (fileSize ts q : Int) (hq : 0 < q) (hmul : q * ts ≤ fileSize) :
    (ts - 1) * q < fileSize := by
  have h1 : (ts - 1) * q = q * ts - q := by ring
  rw [h1]
  linarith

/-- Helper: characterization of a successful NewSegmentManager run whose
planned segment size is positive and whose planned count is at least one. -/
theorem planAndBuild_ok (smId : Nat) (fileSize : Int) (sm1 : SegmentManager)
    (sm : SegmentManager) (files : List String)
    (hok : planAndBuild smId fileSize sm1 = (.ok sm, files))
    (hfs : 0 < fileSize) (hsz : 0 < sm.segmentSize) (hts : 1 ≤ sm.totalSegments) :
    1 ≤ sm.totalSegments.toNat ∧
    sm.segments = plannedSegments smId fileSize sm.segmentSize sm.totalSegments.toNat ∧
    ((sm.totalSegments.toNat : Int) - 1) * sm.segmentSize < fileSize := by
  rw [planAndBuild] at hok
  by_cases hc1 : sm1.totalSegments > 0 ∧ sm1.segmentSize > 0
  · rw [if_pos hc1] at hok
    simp at hok
  rw [if_neg hc1] at hok
  by_cases hc2 : sm1.totalSegments < 0 ∨ sm1.segmentSize < 0
  · rw [if_pos hc2] at hok
    simp at hok
  rw [if_neg hc2] at hok
  simp only [] at hok
  by_cases hA : sm1.fileSize = -1 ∨ sm1.fileSize = 0
  · rw [if_pos hA] at hok
    dsimp only at hok
    have hnot : ¬ (sm1.fileSize > 0) := by rcases hA with h | h <;> omega
    rw [if_neg hnot] at hok
    rw [buildSegmentsLoop_ok smId fileSize 0 (Int.toNat 1) hfs le_rfl] at hok
    simp only [Prod.mk.injEq, Except.ok.injEq] at hok
    obtain ⟨hsm, -⟩ := hok
    rw [← hsm] at hsz
    simp at hsz
  · rw [if_neg hA] at hok
    by_cases hB : sm1.fileSize > 0
    · rw [if_pos hB] at hok
      by_cases hA1 : sm1.totalSegments > 0 ∧ sm1.segmentSize = 0
      · rw [if_pos hA1] at hok
        dsimp only at hok
        have hdnn : 0 ≤ fileSize.tdiv sm1.totalSegments :=
          Int.tdiv_nonneg (le_of_lt hfs) (by omega)
        rw [buildSegmentsLoop_ok smId fileSize _ _ hfs hdnn] at hok
        simp only [Prod.mk.injEq, Except.ok.injEq] at hok
        obtain ⟨hsm, -⟩ := hok
        subst hsm
        dsimp only at hsz hts ⊢
        refine ⟨by omega, rfl, ?_⟩
        rw [Int.toNat_of_nonneg (by omega : (0 : Int) ≤ sm1.totalSegments)]
        rw [Int.tdiv_eq_ediv (le_of_lt hfs) (by omega)] at hsz ⊢
        have hmul : fileSize / sm1.totalSegments * sm1.totalSegments ≤ fileSize :=
          Int.ediv_mul_le fileSize (by omega)
        exact planned_bound fileSize sm1.totalSegments (fileSize / sm1.totalSegments) hsz
          (by linarith [hmul, mul_comm (fileSize / sm1.totalSegments) sm1.totalSegments])
      · rw [if_neg hA1] at hok
        by_cases hA2 : sm1.totalSegments = 0 ∧ sm1.segmentSize > 0
        · rw [if_pos hA2] at hok
          dsimp only at hok
          have hdnn : 0 ≤ sm1.segmentSize := by omega
          rw [buildSegmentsLoop_ok smId fileSize _ _ hfs hdnn] at hok
          simp only [Prod.mk.injEq, Except.ok.injEq] at hok
          obtain ⟨hsm, -⟩ := hok
          subst hsm
          dsimp only at hsz hts ⊢
          refine ⟨by omega, rfl, ?_⟩
          rw [Int.toNat_of_nonneg (by omega : (0 : Int) ≤ fileSize.tdiv sm1.segmentSize)]
          rw [Int.tdiv_eq_ediv (le_of_lt hfs) (by omega)] at hts ⊢
          have hmul : fileSize / sm1.segmentSize * sm1.segmentSize ≤ fileSize :=
            Int.ediv_mul_le fileSize (by omega)
          exact planned_bound fileSize (fileSize / sm1.segmentSize) sm1.segmentSize hsz
            (by linarith [hmul, mul_comm (fileSize / sm1.segmentSize) sm1.segmentSize])
        · rw [if_neg hA2] at hok
          dsimp only [DefaultNumberOfSegments] at hok
          have hdnn : 0 ≤ fileSize.tdiv 4 := Int.tdiv_nonneg (le_of_lt hfs) (by omega)
          rw [buildSegmentsLoop_ok smId fileSize _ _ hfs hdnn] at hok
          simp only [Prod.mk.injEq, Except.ok.injEq] at hok
          obtain ⟨hsm, -⟩ := hok
          subst hsm
          dsimp only at hsz hts ⊢
          refine ⟨by omega, rfl, ?_⟩
          rw [show ((4 : Int).toNat : Int) = 4 from rfl]
          rw [Int.tdiv_eq_ediv (le_of_lt hfs) (by omega)] at hsz ⊢
          have hmul : fileSize / 4 * 4 ≤ fileSize := Int.ediv_mul_le fileSize (by omega)
          exact planned_bound fileSize 4 (fileSize / 4) hsz
            (by linarith [hmul, mul_comm (fileSize / 4) (4 : Int)])
    · rw [if_neg hB] at hok
      have hdnn : 0 ≤ sm1.segmentSize := by omega
      rw [buildSegmentsLoop_ok smId fileSize _ _ hfs hdnn] at hok
      simp only [Prod.mk.injEq, Except.ok.injEq] at hok
      obtain ⟨hsm, -⟩ := hok
      subst hsm
      dsimp only at hsz hts
      exact absurd ⟨by omega, hsz⟩ hc1

/-- Helper: element access in the planned list. -/
theorem plannedSegments_getElem (smId : Nat) (fileSize sz : Int) (N i : Nat) (h : i < N) :
    (plannedSegments smId fileSize sz N)[i]? =
      some (mkPlannedSegment smId fileSize sz N i) := by
  simp [plannedSegments, List.getElem?_map, List.getElem?_range h]

/-- Helper: inversion of element access in the planned list. -/
theorem plannedSegments_getElem_inv (smId : Nat) (fileSize sz : Int) (N i : Nat)
    (s : Segment) (h : (plannedSegments smId fileSize sz N)[i]? = some s) :
    i < N ∧ s = mkPlannedSegment smId fileSize sz N i := by
  by_cases hi : i < N
  · rw [plannedSegments_getElem smId fileSize sz N i hi] at h
    exact ⟨hi, (Option.some.injEq _ _ ▸ h).symm⟩
  · have hlen : (plannedSegments smId fileSize sz N).length ≤ i := by
      simp [plannedSegments]
      omega
    rw [List.getElem?_eq_none hlen] at h
    cases h

/-- Helper: the planned start offset when the segment size is positive. -/
theorem mkPlannedSegment_start (smId : Nat) (fileSize sz : Int) (N i : Nat) (hsz : 0 < sz) :
    (mkPlannedSegment smId fileSize sz N i).params.start = (i : Int) * sz := by
  simp [mkPlannedSegment, hsz]

/-- Helper: the planned end offset of a non-final segment. -/
theorem mkPlannedSegment_endPos_mid (smId : Nat) (fileSize sz : Int) (N i : Nat)
    (hsz : 0 < sz) (h : i ≠ N - 1) :
    (mkPlannedSegment smId fileSize sz N i).params.endPos = (i : Int) * sz + sz - 1 := by
  simp [mkPlannedSegment, hsz, h]

/-- Helper: the planned end offset of the final segment. -/
theorem mkPlannedSegment_endPos_last (smId : Nat) (fileSize sz : Int) (N : Nat)
    (hsz : 0 < sz) :
    (mkPlannedSegment smId fileSize sz N (N - 1)).params.endPos = fileSize - 1 := by
  simp [mkPlannedSegment, hsz]

/-- Helper: the partition facts for the planned list. -/
theorem plannedSegments_partition (smId : Nat) (fileSize sz : Int) (N : Nat)
    (hfs : 0 < fileSize) (hsz : 0 < sz) (hN : 1 ≤ N)
    (hbound : ((N : Int) - 1) * sz < fileSize) :
    ((plannedSegments smId fileSize sz N).map
        fun s => s.params.endPos - s.params.start + 1).sum = fileSize ∧
    ((plannedSegments smId fileSize sz N).head?.map fun s => s.params.start) = some 0 ∧
    ((plannedSegments smId fileSize sz N).getLast?.map fun s => s.params.endPos) =
      some (fileSize - 1) ∧
    (∀ (i : Nat) (s : Segment), (plannedSegments smId fileSize sz N)[i]? = some s →
        s.params.start ≤ s.params.endPos) ∧
    (∀ (i : Nat) (s t : Segment), (plannedSegments smId fileSize sz N)[i]? = some s →
        (plannedSegments smId fileSize sz N)[i + 1]? = some t →
        t.params.start = s.params.endPos + 1) ∧
    (∀ (i j : Nat) (s t : Segment), i < j →
        (plannedSegments smId fileSize sz N)[i]? = some s →
        (plannedSegments smId fileSize sz N)[j]? = some t →
        s.params.endPos < t.params.start) := by
  have hlen : (plannedSegments smId fileSize sz N).length = N := by simp [plannedSegments]
  refine ⟨?_, ?_, ?_, ?_, ?_, ?_⟩
  · obtain ⟨M, rfl⟩ : ∃ M, N = M + 1 := ⟨N - 1, by omega⟩
    rw [plannedSegments, List.map_map, List.range_succ, List.map_append, List.sum_append]
    have hpre : (List.range M).map
        ((fun s => s.params.endPos - s.params.start + 1) ∘
          mkPlannedSegment smId fileSize sz (M + 1)) =
        (List.range M).map (fun _ => sz) := by
      apply List.map_congr_left
      intro i hi
      have hiM : i < M := List.mem_range.mp hi
      simp only [Function.comp_apply]
      rw [mkPlannedSegment_start smId fileSize sz (M + 1) i hsz]
      rw [mkPlannedSegment_endPos_mid smId fileSize sz (M + 1) i hsz (by omega)]
      ring
    rw [hpre, List.map_const', List.sum_replicate, List.length_range]
    simp only [List.map_cons, List.map_nil, List.sum_cons, List.sum_nil, Function.comp_apply]
    rw [mkPlannedSegment_start smId fileSize sz (M + 1) M hsz]
    have hlast : (mkPlannedSegment smId fileSize sz (M + 1) M).params.endPos =
        fileSize - 1 := by
      have h := mkPlannedSegment_endPos_last smId fileSize sz (M + 1) hsz
      simpa using h
    rw [hlast, nsmul_eq_mul]
    ring
  · rw [List.head?_eq_getElem?, plannedSegments_getElem smId fileSize sz N 0 (by omega)]
    simp [mkPlannedSegment_start smId fileSize sz N 0 hsz]
  · rw [List.getLast?_eq_getElem?, hlen,
      plannedSegments_getElem smId fileSize sz N (N - 1) (by omega)]
    simp [mkPlannedSegment_endPos_last smId fileSize sz N hsz]
  · intro i s h
    obtain ⟨hi, rfl⟩ := plannedSegments_getElem_inv smId fileSize sz N i s h
    by_cases hilast : i = N - 1
    · subst hilast
      rw [mkPlannedSegment_start smId fileSize sz N (N - 1) hsz]
      rw [mkPlannedSegment_endPos_last smId fileSize sz N hsz]
      have hc : ((N - 1 : Nat) : Int) = (N : Int) - 1 := by omega
      rw [hc]
      linarith
    · rw [mkPlannedSegment_start smId fileSize sz N i hsz]
      rw [mkPlannedSegment_endPos_mid smId fileSize sz N i hsz hilast]
      linarith
  · intro i s t hs ht
    obtain ⟨hi, rfl⟩ := plannedSegments_getElem_inv smId fileSize sz N i s hs
    obtain ⟨hi1, rfl⟩ := plannedSegments_getElem_inv smId fileSize sz N (i + 1) t ht
    rw [mkPlannedSegment_start smId fileSize sz N (i + 1) hsz]
    rw [mkPlannedSegment_endPos_mid smId fileSize sz N i hsz (by omega)]
    push_cast
    ring
  · intro i j s t hij hs ht
    obtain ⟨hi, rfl⟩ := plannedSegments_getElem_inv smId fileSize sz N i s hs
    obtain ⟨hj, rfl⟩ := plannedSegments_getElem_inv smId fileSize sz N j t ht
    rw [mkPlannedSegment_endPos_mid smId fileSize sz N i hsz (by omega)]
    rw [mkPlannedSegment_start smId fileSize sz N j hsz]
    have hcast : ((i : Int) + 1) ≤ (j : Int) := by exact_mod_cast hij
    have hmul : ((i : Int) + 1) * sz ≤ (j : Int) * sz :=
      mul_le_mul_of_nonneg_right hcast (le_of_lt hsz)
    rw [add_mul, one_mul] at hmul
    linarith

/-- Claim C1 (amended): for every successful construction with a positive
file size whose planned segment size is positive and whose planned count is
at least one, the planned segments partition the byte range 0..fileSize-1:
the covered lengths sum to fileSize, the first start is 0, the last end is
fileSize - 1, every segment is well formed (start at most end), consecutive
segments are contiguous in ascending id order, and distinct segments are
pairwise disjoint. -/
theorem c1_partition (smId : Nat) (dstDir : String) (fileSize : Int)
    (opts : List (SegmentManager → SegmentManager)) (sm : SegmentManager)
    (files : List String)
    (hok : newSegmentManager smId dstDir fileSize opts = (.ok sm, files))
    (hfs : 0 < fileSize) (hsz : 0 < sm.segmentSize) (hts : 1 ≤ sm.totalSegments) :
    sm.segments.length = sm.totalSegments.toNat ∧
    (sm.segments.map fun s => s.params.endPos - s.params.start + 1).sum = fileSize ∧
    (sm.segments.head?.map fun s => s.params.start) = some 0 ∧
    (sm.segments.getLast?.map fun s => s.params.endPos) = some (fileSize - 1) ∧
    (∀ (i : Nat) (s : Segment), sm.segments[i]? = some s →
        s.params.start ≤ s.params.endPos) ∧
    (∀ (i : Nat) (s t : Segment), sm.segments[i]? = some s →
        sm.segments[i + 1]? = some t → t.params.start = s.params.endPos + 1) ∧
    (∀ (i j : Nat) (s t : Segment), i < j → sm.segments[i]? = some s →
        sm.segments[j]? = some t → s.params.endPos < t.params.start) := by
  rw [newSegmentManager] at hok
  obtain ⟨hN, hsegs, hbound⟩ := planAndBuild_ok smId fileSize _ sm files hok hfs hsz hts
  obtain ⟨hsum, hhead, hlast, hwf, hcontig, hdisj⟩ :=
    plannedSegments_partition smId fileSize sm.segmentSize sm.totalSegments.toNat
      hfs hsz hN hbound
  rw [hsegs]
  exact ⟨by simp [plannedSegments], hsum, hhead, hlast, hwf, hcontig, hdisj⟩

theorem c1_witness :
    sampleManager.segments.length = sampleManager.totalSegments.toNat ∧
    (sampleManager.segments.map fun s => s.params.endPos - s.params.start + 1).sum = 10 ∧
    (sampleManager.segments.head?.map fun s => s.params.start) = some 0 ∧
    (sampleManager.segments.getLast?.map fun s => s.params.endPos) = some (10 - 1) ∧
    (∀ (i : Nat) (s : Segment), sampleManager.segments[i]? = some s →
        s.params.start ≤ s.params.endPos) ∧
    (∀ (i : Nat) (s t : Segment), sampleManager.segments[i]? = some s →
        sampleManager.segments[i + 1]? = some t → t.params.start = s.params.endPos + 1) ∧
    (∀ (i j : Nat) (s t : Segment), i < j → sampleManager.segments[i]? = some s →
        sampleManager.segments[j]? = some t → s.params.endPos < t.params.start) :=
  c1_partition 0 "" 10 [withSegmentSize 3] sampleManager
    ["segment-0-part-0", "segment-0-part-1", "segment-0-part-2"] rfl
    (by decide) (by decide) (by decide)

end DurableRetry
